import Mathlib

/-! Shallow embedding of `lib/local/LandmarkDetector/src/Patch_experts.cpp` from the
OpenFace landmark-detector: the patch-expert response orchestration layer.

Modelling conventions:
* C++ `float`/`double` values are modelled as exact rationals (`Rat`); the claims
  settled here concern control flow, dispatch, indexing and argmin/tie-break
  structure, which are representation independent.
* C++ `int` arithmetic on sizes is modelled with `Int` where subtraction matters.
* `std::vector` is a `List`; `v[i]` is `List.getD` (out-of-range access is C++ UB,
  modelled by the default element); `v.resize(n)` keeps a prefix and default-fills.
* External collaborators (the PDM shape model, `AlignShapesWithScale_f`,
  `cvGetQuadrangleSubPix`, the per-representation response computations and the
  on-disk parsing primitives `ReadMat`/`ReadMatBin`) are out of scope per the spec;
  they are modelled as uninterpreted record fields or as free constructors that
  record exactly the arguments the orchestrator hands them.
-/

namespace OpenFace

/-- A 3-vector of rationals, modelling the `cv::Vec3d` view centers. -/
abbrev Vec3 := Rat × Rat × Rat

/-- An opaque grayscale input image (`cv::Mat_<uchar>`); its pixel content is
only ever consumed by the external resampler, so an identifier suffices. -/
structure GrayImage where
  id : Nat
  deriving DecidableEq, Repr, Inhabited

/-- A 2x2 matrix of rationals, modelling `cv::Matx22f`. -/
structure Matx22 where
  m00 : Rat
  m01 : Rat
  m10 : Rat
  m11 : Rat
  deriving DecidableEq, Repr, Inhabited

/-- The 2x3 sampling transform built per landmark; the source builds the matrix
`(a, -b, tx; b, a, ty)`, so the four stored fields determine it. -/
structure SimMat where
  a : Rat
  b : Rat
  tx : Rat
  ty : Rat
  deriving DecidableEq, Repr, Inhabited

/-- The pixel neighborhood extracted by `cvGetQuadrangleSubPix`: an external
sub-pixel resampler, so the patch is modelled by the data that determines it
(source image, sampling transform, destination height and width). -/
structure AOI where
  img : GrayImage
  sim : SimMat
  height : Int
  width : Int
  deriving DecidableEq, Repr, Inhabited

/-- The interpolation matrix produced by `interpolationMatrix`; its numeric
content is external, so it is modelled by the four size arguments that
determine it. -/
structure InterpMat where
  respW : Int
  respH : Int
  aoiW : Int
  aoiH : Int
  deriving DecidableEq, Repr, Inhabited

/-- External `interpolationMatrix(out, respW, respH, aoiW, aoiH)`. -/
def interpolationMatrix (respW respH aoiW aoiH : Int) : InterpMat :=
  ⟨respW, respH, aoiW, aoiH⟩

/-- An SVR patch expert; only its support width/height are consumed by the
orchestrator, the learned parameters are an opaque payload. -/
structure Multi_SVR_patch_expert where
  width : Nat
  height : Nat
  payload : Nat
  deriving DecidableEq, Repr, Inhabited

/-- A CCNF patch expert; only its support width/height are consumed by the
orchestrator, the learned parameters are an opaque payload. -/
structure CCNF_patch_expert where
  width : Nat
  height : Nat
  payload : Nat
  deriving DecidableEq, Repr, Inhabited

/-- A CEN patch expert; the orchestrator consumes its support width/height and
the emptiness of its bias vector (empty marks a mirror placeholder). -/
structure CEN_patch_expert where
  width : Nat
  height : Nat
  biases : List Rat
  payload : Nat
  deriving DecidableEq, Repr, Inhabited

/-- A dense rational matrix (`cv::Mat_<float>`), rows as lists. -/
abbrev MatF := List (List Rat)

/-- The patch-expert model store, mirroring the data members of the C++
`Patch_experts` class as used by `Patch_experts.cpp`. -/
structure Patch_experts where
  patch_scaling : List Rat
  centers : List (List Vec3)
  visibilities : List (List (List Int))
  svr_expert_intensity : List (List (List Multi_SVR_patch_expert))
  ccnf_expert_intensity : List (List (List CCNF_patch_expert))
  cen_expert_intensity : List (List (List CEN_patch_expert))
  sigma_components : List (List MatF)
  early_term_weights : List Rat
  early_term_biases : List Rat
  early_term_cutoffs : List Rat
  mirror_inds : List Int
  mirror_views : List Int
  deriving DecidableEq, Repr, Inhabited

/-- Modelled from the spec: the `nViews` accessor is declared in the class
header (not under `src/`); per the spec a scale's view count is the number of
stored view centers, matching its uses in `Patch_experts.cpp`. -/
def Patch_experts.nViews (pe : Patch_experts) (scale : Nat) : Nat :=
  (pe.centers.getD scale []).length

/-- The CEN expert stored at `(scale, view, landmark)`. -/
def cenAt (pe : Patch_experts) (scale view ind : Nat) : CEN_patch_expert :=
  ((pe.cen_expert_intensity.getD scale []).getD view []).getD ind default

/-- The CCNF expert stored at `(scale, view, landmark)`. -/
def ccnfAt (pe : Patch_experts) (scale view ind : Nat) : CCNF_patch_expert :=
  ((pe.ccnf_expert_intensity.getD scale []).getD view []).getD ind default

/-- The SVR expert stored at `(scale, view, landmark)`. -/
def svrAt (pe : Patch_experts) (scale view ind : Nat) : Multi_SVR_patch_expert :=
  ((pe.svr_expert_intensity.getD scale []).getD view []).getD ind default

/-- The loop-body condition of `Collect_visible_landmarks` (source lines
97-127) deciding whether landmark `i` is pushed, with the exact nesting of the
source: the `rows == n` guard, the nonzero visibility entry, and for a loaded
CEN representation at the frontal view the non-empty bias check. -/
def collectPred (pe : Patch_experts) (visibilities : List (List (List Int)))
    (scale view_id n i : Nat) : Bool :=
  if ((visibilities.getD scale []).getD view_id []).length = n then
    if ((visibilities.getD scale []).getD view_id []).getD i 0 ≠ 0 then
      if pe.cen_expert_intensity ≠ [] then
        if view_id = 0 then
          decide ((cenAt pe scale view_id i).biases ≠ [])
        else
          true
      else
        true
    else
      false
  else
    false

/-- `Patch_experts::Collect_visible_landmarks` (source lines 94-130): iterate
`i = 0, ..., n-1` and push the indices passing `collectPred`. -/
def Patch_experts.Collect_visible_landmarks (pe : Patch_experts)
    (visibilities : List (List (List Int))) (scale view_id n : Nat) : List Nat :=
  (List.range n).filter (fun i => collectPred pe visibilities scale view_id n i)

/-- The squared distance computed inside `GetViewIdx` (source lines 345-349)
between pose components 1-3 and the view center `i` at `scale`. -/
def viewDist (pe : Patch_experts) (params_global : Fin 6 → Rat)
    (scale i : Nat) : Rat :=
  let c := (pe.centers.getD scale []).getD i (0, 0, 0)
  let v1 := params_global 1 - c.1
  let v2 := params_global 2 - c.2.1
  let v3 := params_global 3 - c.2.2
  v1 * v1 + v2 * v2 + v3 * v3

/-- The running-best loop of `GetViewIdx` (source lines 343-356): state is
`(idx, dbest)`; at iteration `k` the state is replaced when `k == 0` or the
distance is strictly below the running best.  The initial `dbest` is
uninitialized in the source; it is irrelevant because iteration 0 always
overwrites it, and is modelled as `0`. -/
def bestLoop (d : Nat → Rat) : Nat → Nat × Rat
  | 0 => (0, 0)
  | k + 1 =>
      let p := bestLoop d k
      if k = 0 ∨ d k < p.2 then (k, d k) else p

/-- `Patch_experts::GetViewIdx` (source lines 337-358). -/
def Patch_experts.GetViewIdx (pe : Patch_experts) (params_global : Fin 6 → Rat)
    (scale : Nat) : Nat :=
  (bestLoop (viewDist pe params_global scale) (pe.nViews scale)).1

/-- A response-map value as observed in the output array: either never written,
or the record of the exact external response call that produced it.  The
`ccnfOB` constructor records the `ResponseOB` call whose result the source
stores in a local placeholder matrix. -/
inductive RVal where
  | unset : RVal
  | cenSparse (e : CEN_patch_expert) (aoi : AOI) (interp : InterpMat) : RVal
  | cenJointFst (e : CEN_patch_expert) (aoi aoiMirror : AOI) (interp : InterpMat) : RVal
  | cenJointSnd (e : CEN_patch_expert) (aoi aoiMirror : AOI) (interp : InterpMat) : RVal
  | cenMirrorSingle (e : CEN_patch_expert) (aoi : AOI) (interp : InterpMat) : RVal
  | ccnfResp (e : CCNF_patch_expert) (aoi : AOI) (ws : Nat) : RVal
  | ccnfOB (e : CCNF_patch_expert) (aoi : AOI) (ws : Nat) : RVal
  | svrResp (e : Multi_SVR_patch_expert) (aoi : AOI) (ws : Nat) : RVal
  deriving DecidableEq, Repr, Inhabited

/-- The three patch-expert representations. -/
inductive RepKind where
  | CEN : RepKind
  | CCNF : RepKind
  | SVR : RepKind
  deriving DecidableEq, Repr

/-- Which representation produced a response value. -/
def rvalKind : RVal → Option RepKind
  | .unset => none
  | .cenSparse _ _ _ => some .CEN
  | .cenJointFst _ _ _ _ => some .CEN
  | .cenJointSnd _ _ _ _ => some .CEN
  | .cenMirrorSingle _ _ _ => some .CEN
  | .ccnfResp _ _ _ => some .CCNF
  | .ccnfOB _ _ _ => some .CCNF
  | .svrResp _ _ _ => some .SVR

/-- The interpolation matrix a CEN response call received, if any. -/
def rvalInterp : RVal → Option InterpMat
  | .cenSparse _ _ m => some m
  | .cenJointFst _ _ _ m => some m
  | .cenJointSnd _ _ _ m => some m
  | .cenMirrorSingle _ _ m => some m
  | _ => none

/-- The representation the `Response` dispatch selects, read off the source's
emptiness checks (lines 259, 310, 323): CEN when loaded, else CCNF, else SVR. -/
def dispatchKind (pe : Patch_experts) : RepKind :=
  if pe.cen_expert_intensity ≠ [] then .CEN
  else if pe.ccnf_expert_intensity ≠ [] then .CCNF
  else .SVR

/-- The interpolation-matrix precomputation of `Response` (source lines
200-210), with the source's `int` arithmetic: an 11-pixel support region around
`window_size`. -/
def responseInterpMat (window_size : Nat) : InterpMat :=
  let support_region : Int := 11
  let area_of_interest_width : Int := window_size + support_region - 1
  let area_of_interest_height : Int := window_size + support_region - 1
  let resp_size : Int := area_of_interest_height - support_region + 1
  interpolationMatrix resp_size resp_size area_of_interest_width area_of_interest_height

/-- One iteration of the per-landmark loop of `Response` (source lines
221-330): compute the area-of-interest size from the active representation's
expert at `ind`, build the sampling transform anchored at landmark `ind`'s
current location with the shared rotation/scale `(a1, b1)`, extract the
neighborhood, and dispatch.  The state is the response array paired with the
diagnostic log of `(placeholder, response)` matrix pairs whose norm the CCNF
branch prints (source lines 317-321). -/
def processLandmark (pe : Patch_experts) (img : GrayImage) (locs : List Rat)
    (n window_size scale view_id : Nat) (a1 b1 : Rat) (interp : InterpMat)
    (st : List RVal × List (RVal × RVal)) (ind : Nat) :
    List RVal × List (RVal × RVal) :=
  let resp := st.1
  let dlog := st.2
  let dims : Int × Int :=
    if pe.cen_expert_intensity ≠ [] then
      ((window_size : Int) + (cenAt pe scale view_id ind).width - 1,
       (window_size : Int) + (cenAt pe scale view_id ind).height - 1)
    else if pe.ccnf_expert_intensity ≠ [] then
      ((window_size : Int) + (ccnfAt pe scale view_id ind).width - 1,
       (window_size : Int) + (ccnfAt pe scale view_id ind).height - 1)
    else
      ((window_size : Int) + (svrAt pe scale view_id ind).width - 1,
       (window_size : Int) + (svrAt pe scale view_id ind).height - 1)
  let sim : SimMat := ⟨a1, b1, locs.getD ind 0, locs.getD (ind + n) 0⟩
  let aoi : AOI := ⟨img, sim, dims.2, dims.1⟩
  if pe.cen_expert_intensity ≠ [] then
    if view_id = 0 then
      if (cenAt pe scale view_id ind).biases ≠ [] then
        let mirror_id := (pe.mirror_inds.getD ind 0).toNat
        if mirror_id = ind then
          (resp.set ind (RVal.cenSparse (cenAt pe scale view_id ind) aoi interp), dlog)
        else
          let sim_r : SimMat := ⟨a1, b1, locs.getD mirror_id 0, locs.getD (mirror_id + n) 0⟩
          let aoi_r : AOI := ⟨img, sim_r, dims.2, dims.1⟩
          ((resp.set ind
              (RVal.cenJointFst (cenAt pe scale view_id ind) aoi aoi_r interp)).set mirror_id
              (RVal.cenJointSnd (cenAt pe scale view_id ind) aoi aoi_r interp), dlog)
      else
        (resp, dlog)
    else
      if (cenAt pe scale view_id ind).biases ≠ [] then
        (resp.set ind (RVal.cenSparse (cenAt pe scale view_id ind) aoi interp), dlog)
      else
        (resp.set ind
          (RVal.cenMirrorSingle
            (cenAt pe scale (pe.mirror_views.getD view_id 0).toNat
              (pe.mirror_inds.getD ind 0).toNat) aoi interp), dlog)
  else if pe.ccnf_expert_intensity ≠ [] then
    let res := RVal.ccnfResp (ccnfAt pe scale view_id ind) aoi window_size
    let placeholder := RVal.ccnfOB (ccnfAt pe scale view_id ind) aoi window_size
    (resp.set ind res, dlog ++ [(placeholder, res)])
  else
    (resp.set ind (RVal.svrResp (svrAt pe scale view_id ind) aoi window_size), dlog)

/-- The external PDM shape-model collaborator: point count and `CalcShape2D`,
which maps (local parameters, global pose) to the stacked x-then-y coordinate
vector of length `2 * numPoints`. -/
structure PDM where
  numPoints : Nat
  calcShape2D : List Rat → (Fin 6 → Rat) → List Rat

/-- The external alignment collaborators used by `Response`:
`AlignShapesWithScale_f` and 2x2 LU inversion. -/
structure Externals where
  alignShapesWithScale : List Rat → List Rat → Matx22
  invLU : Matx22 → Matx22

/-- The outputs of `Response`: the response array (with the CCNF diagnostic
log) and the two similarity transforms. -/
structure ResponseOut where
  responses : List RVal
  diagLog : List (RVal × RVal)
  sim_ref_to_img : Matx22
  sim_img_to_ref : Matx22

/-- `Patch_experts::Response` (source lines 136-333): select the view, compute
the current and reference shapes, align them, take the rotation/scale part
`(a1, b1)` of the reference-to-image transform, precompute the CEN
interpolation matrix, collect the visible landmarks and fold the per-landmark
loop over them.  The CCNF `ComputeSigmas` precomputation (lines 171-198)
mutates only CCNF-internal caches, which are out-of-scope representation
internals, and is not modelled.  `init` is the caller-allocated response
array. -/
def Patch_experts.Response (pe : Patch_experts) (ext : Externals)
    (init : List RVal) (img : GrayImage) (pdm : PDM)
    (params_global : Fin 6 → Rat) (params_local : List Rat)
    (window_size scale : Nat) : ResponseOut :=
  let view_id := pe.GetViewIdx params_global scale
  let n := pdm.numPoints
  let landmark_locations := pdm.calcShape2D params_local params_global
  let global_ref : Fin 6 → Rat := fun i => if i = 0 then pe.patch_scaling.getD scale 0 else 0
  let reference_shape := pdm.calcShape2D params_local global_ref
  let sim_img_to_ref := ext.alignShapesWithScale landmark_locations reference_shape
  let sim_ref_to_img := ext.invLU sim_img_to_ref
  let a1 := sim_ref_to_img.m00
  let b1 := - sim_ref_to_img.m01
  let interp_mat : InterpMat :=
    if pe.cen_expert_intensity ≠ [] then responseInterpMat window_size else default
  let vis_lmk := pe.Collect_visible_landmarks pe.visibilities scale view_id n
  let st := vis_lmk.foldl
    (processLandmark pe img landmark_locations n window_size scale view_id a1 b1 interp_mat)
    (init, [])
  ⟨st.1, st.2, sim_ref_to_img, sim_img_to_ref⟩

/-- `std::vector::resize(n)` with default-constructed fill: keeps the first
`min n l.length` elements and default-fills the rest. -/
def resizeD {α : Type} [Inhabited α] (l : List α) (n : Nat) : List α :=
  (List.range n).map (fun i => l.getD i default)

/-- The decimal `M_PI` constant of the source, as an exact rational. -/
def mPI : Rat := 3.14159265358979323846

/-- The degrees-to-radians conversion applied to each loaded view center
(`center * M_PI / 180`). -/
def degToRad (c : Vec3) : Vec3 :=
  (c.1 * mPI / 180, c.2.1 * mPI / 180, c.2.2 * mPI / 180)

/-- The parsed content of an SVR patch-expert model file.  The tokenized-text
parsing primitives (`SkipComments`, `ReadMat`, stream reads) are external, so
the file is modelled as the structured sequence of values they deliver:
`centerAt i` / `visAt i` are the i-th center and visibility column read, and
`patchAt i j` the (view i, landmark j) model block. -/
structure SVRFile where
  scale : Rat
  numberViews : Nat
  centerAt : Nat → Vec3
  visAt : Nat → List Int
  patchAt : Nat → Nat → Multi_SVR_patch_expert

/-- The parsed content of a CCNF patch-expert model file (fixed-width binary,
read through the external `ReadMatBin` and raw stream reads). -/
structure CCNFFile where
  patchScaling : Rat
  numberViews : Nat
  centerAt : Nat → Vec3
  visAt : Nat → List Int
  numWinSizes : Nat
  windowAt : Nat → Int
  numSigmaAt : Nat → Nat
  sigmaAt : Nat → Nat → MatF
  patchAt : Nat → Nat → CCNF_patch_expert

/-- The parsed content of a CEN patch-expert model file (fixed-width binary). -/
structure CENFile where
  scale : Rat
  numberViews : Nat
  centerAt : Nat → Vec3
  visAt : Nat → List Int
  mirrorInds : List Int
  mirrorViews : List Int
  patchAt : Nat → Nat → CEN_patch_expert

/-- `Patch_experts::Read_SVR_patch_experts` (source lines 450-514).  `file` is
`none` when `ifstream::is_open()` fails, in which case the source only prints a
diagnostic and returns, leaving every reference parameter untouched.  On
success each output vector is resized to the view count and every entry
overwritten from the file; the landmark count is the first visibility column's
row count. -/
def Read_SVR_patch_experts (file : Option SVRFile) (centers : List Vec3)
    (visibility : List (List Int)) (patches : List (List Multi_SVR_patch_expert))
    (scale : Rat) :
    List Vec3 × List (List Int) × List (List Multi_SVR_patch_expert) × Rat :=
  match file with
  | none => (centers, visibility, patches, scale)
  | some f =>
      let scale := f.scale
      let centers := (List.range f.numberViews).map (fun i => degToRad (f.centerAt i))
      let visibility := (List.range f.numberViews).map (fun i => f.visAt i)
      let numberOfPoints := (visibility.getD 0 []).length
      let patches := (List.range f.numberViews).map
        (fun i => (List.range numberOfPoints).map (fun j => f.patchAt i j))
      (centers, visibility, patches, scale)

/-- `Patch_experts::Read_CCNF_patch_experts` (source lines 517-595).  Also
reads the shared sigma-component catalog into the store's `sigma_components`
member (the per-window `windows` size tags feed only the out-of-scope
per-patch `Read`).  On an unopenable file all outputs are untouched. -/
def Read_CCNF_patch_experts (file : Option CCNFFile) (centers : List Vec3)
    (visibility : List (List Int)) (patches : List (List CCNF_patch_expert))
    (patchScaling : Rat) (sigma : List (List MatF)) :
    List Vec3 × List (List Int) × List (List CCNF_patch_expert) × Rat × List (List MatF) :=
  match file with
  | none => (centers, visibility, patches, patchScaling, sigma)
  | some f =>
      let patchScaling := f.patchScaling
      let centers := (List.range f.numberViews).map (fun i => degToRad (f.centerAt i))
      let visibility := (List.range f.numberViews).map (fun i => f.visAt i)
      let numberOfPoints := (visibility.getD 0 []).length
      let sigma := (List.range f.numWinSizes).map
        (fun w => (List.range (f.numSigmaAt w)).map (fun s => f.sigmaAt w s))
      let patches := (List.range f.numberViews).map
        (fun i => (List.range numberOfPoints).map (fun j => f.patchAt i j))
      (centers, visibility, patches, patchScaling, sigma)

/-- `Patch_experts::Read_CEN_patch_experts` (source lines 598-652).  Also reads
the landmark-mirror and view-mirror index vectors into the store.  On an
unopenable file all outputs are untouched. -/
def Read_CEN_patch_experts (file : Option CENFile) (centers : List Vec3)
    (visibility : List (List Int)) (patches : List (List CEN_patch_expert))
    (scale : Rat) (mirror_inds mirror_views : List Int) :
    List Vec3 × List (List Int) × List (List CEN_patch_expert) × Rat × List Int × List Int :=
  match file with
  | none => (centers, visibility, patches, scale, mirror_inds, mirror_views)
  | some f =>
      let scale := f.scale
      let centers := (List.range f.numberViews).map (fun i => degToRad (f.centerAt i))
      let visibility := (List.range f.numberViews).map (fun i => f.visAt i)
      let numberOfPoints := (visibility.getD 0 []).length
      let patches := (List.range f.numberViews).map
        (fun i => (List.range numberOfPoints).map (fun j => f.patchAt i j))
      (centers, visibility, patches, scale, f.mirrorInds, f.mirrorViews)

/-- The SVR stage of `Patch_experts::Read` (source lines 365-379): resize the
shared per-scale arrays to the SVR location count, then run the SVR loader for
each scale slot. -/
def readSVRStage (pe : Patch_experts) (files : List (Option SVRFile)) : Patch_experts :=
  let num := files.length
  let pe0 := { pe with
    centers := resizeD pe.centers num,
    visibilities := resizeD pe.visibilities num,
    patch_scaling := resizeD pe.patch_scaling num,
    svr_expert_intensity := resizeD pe.svr_expert_intensity num }
  (List.range num).foldl
    (fun pe scale =>
      let r := Read_SVR_patch_experts (files.getD scale none) (pe.centers.getD scale [])
        (pe.visibilities.getD scale []) (pe.svr_expert_intensity.getD scale [])
        (pe.patch_scaling.getD scale 0)
      { pe with
        centers := pe.centers.set scale r.1,
        visibilities := pe.visibilities.set scale r.2.1,
        svr_expert_intensity := pe.svr_expert_intensity.set scale r.2.2.1,
        patch_scaling := pe.patch_scaling.set scale r.2.2.2 })
    pe0

/-- The CCNF stage of `Patch_experts::Read` (source lines 382-398): when any
CCNF location is given, re-resize the shared arrays to the CCNF location count
(overriding SVR), then run the CCNF loader per scale. -/
def readCCNFStage (pe : Patch_experts) (files : List (Option CCNFFile)) : Patch_experts :=
  let num := files.length
  let pe0 :=
    if 0 < num then
      { pe with
        centers := resizeD pe.centers num,
        visibilities := resizeD pe.visibilities num,
        patch_scaling := resizeD pe.patch_scaling num,
        ccnf_expert_intensity := resizeD pe.ccnf_expert_intensity num }
    else pe
  (List.range num).foldl
    (fun pe scale =>
      let r := Read_CCNF_patch_experts (files.getD scale none) (pe.centers.getD scale [])
        (pe.visibilities.getD scale []) (pe.ccnf_expert_intensity.getD scale [])
        (pe.patch_scaling.getD scale 0) pe.sigma_components
      { pe with
        centers := pe.centers.set scale r.1,
        visibilities := pe.visibilities.set scale r.2.1,
        ccnf_expert_intensity := pe.ccnf_expert_intensity.set scale r.2.2.1,
        patch_scaling := pe.patch_scaling.set scale r.2.2.2.1,
        sigma_components := r.2.2.2.2 })
    pe0

/-- The CEN stage of `Patch_experts::Read` (source lines 401-417): when any CEN
location is given, re-resize the shared arrays to the CEN location count
(overriding SVR and CCNF), then run the CEN loader per scale. -/
def readCENStage (pe : Patch_experts) (files : List (Option CENFile)) : Patch_experts :=
  let num := files.length
  let pe0 :=
    if 0 < num then
      { pe with
        centers := resizeD pe.centers num,
        visibilities := resizeD pe.visibilities num,
        patch_scaling := resizeD pe.patch_scaling num,
        cen_expert_intensity := resizeD pe.cen_expert_intensity num }
    else pe
  (List.range num).foldl
    (fun pe scale =>
      let r := Read_CEN_patch_experts (files.getD scale none) (pe.centers.getD scale [])
        (pe.visibilities.getD scale []) (pe.cen_expert_intensity.getD scale [])
        (pe.patch_scaling.getD scale 0) pe.mirror_inds pe.mirror_views
      { pe with
        centers := pe.centers.set scale r.1,
        visibilities := pe.visibilities.set scale r.2.1,
        cen_expert_intensity := pe.cen_expert_intensity.set scale r.2.2.1,
        patch_scaling := pe.patch_scaling.set scale r.2.2.2.1,
        mirror_inds := r.2.2.2.2.1,
        mirror_views := r.2.2.2.2.2 })
    pe0

/-- The early-termination stage of `Patch_experts::Read` (source lines
420-446): only when the auxiliary path is non-empty (`some`), append
`centers[0].size()` sequential stream reads to each of the weights, biases and
cutoffs arrays, in that order.  The stream is modelled as the sequence of
numbers `>>` delivers; the source never checks that the file opened. -/
def earlyTermStage (pe : Patch_experts) (file : Option (Nat → Rat)) : Patch_experts :=
  match file with
  | none => pe
  | some f =>
      let m := (pe.centers.getD 0 []).length
      { pe with
        early_term_weights := pe.early_term_weights ++ (List.range m).map (fun i => f i),
        early_term_biases := pe.early_term_biases ++ (List.range m).map (fun i => f (m + i)),
        early_term_cutoffs := pe.early_term_cutoffs ++ (List.range m).map (fun i => f (2 * m + i)) }

/-- `Patch_experts::Read` (source lines 362-448): the SVR, CCNF and CEN stages
in order, then the optional early-termination coefficients. -/
def Patch_experts.Read (pe : Patch_experts) (svr_files : List (Option SVRFile))
    (ccnf_files : List (Option CCNFFile)) (cen_files : List (Option CENFile))
    (early_term : Option (Nat → Rat)) : Patch_experts :=
  earlyTermStage (readCENStage (readCCNFStage (readSVRStage pe svr_files) ccnf_files) cen_files)
    early_term

namespace RefModel

/-- The heap of matrix payloads shared by reference-counted `cv::Mat`
headers; payloads are modelled as integer lists. -/
structure Heap where
  data : List (List Int)
  deriving DecidableEq, Repr, Inhabited

/-- Reading the payload a header points at. -/
def Heap.read (h : Heap) (r : Nat) : List Int :=
  h.data.getD r []

/-- In-place mutation of the payload a header points at (e.g. writing an
element through `cv::Mat_::at`). -/
def Heap.write (h : Heap) (r : Nat) (v : List Int) : Heap :=
  ⟨h.data.set r v⟩

/-- `cv::Mat::clone()`: allocate fresh storage holding a copy of the payload
and return its header. -/
def Heap.clone (h : Heap) (r : Nat) : Heap × Nat :=
  (⟨h.data ++ [h.read r]⟩, h.data.length)

/-- Clone a vector of matrices left to right, threading the heap. -/
def cloneMats : Heap → List Nat → Heap × List Nat
  | h, [] => (h, [])
  | h, r :: rs =>
      let p := h.clone r
      let q := cloneMats p.1 rs
      (q.1, p.2 :: q.2)

/-- Clone a vector of vectors of matrices, threading the heap. -/
def cloneMats2 : Heap → List (List Nat) → Heap × List (List Nat)
  | h, [] => (h, [])
  | h, rs :: rss =>
      let p := cloneMats h rs
      let q := cloneMats2 p.1 rss
      (q.1, p.2 :: q.2)

/-- The matrix-valued members of `Patch_experts`, with `cv::Mat` reference
semantics made explicit: `visibilities` and `sigma_components` are vectors of
matrix headers, `mirror_inds` and `mirror_views` single headers.  The expert
collections and the scalar vectors hold no `cv::Mat` member of the class
itself and are omitted here (the value model above covers them). -/
structure PatchExpertsRefs where
  sigma_components : List (List Nat)
  visibilities : List (List Nat)
  mirror_inds : Nat
  mirror_views : Nat
  deriving DecidableEq, Repr, Inhabited

/-- All matrix headers reachable from the cloned vector members. -/
def clonedRefs (p : PatchExpertsRefs) : List Nat :=
  p.sigma_components.flatten ++ p.visibilities.flatten

/-- The `Patch_experts` copy constructor (source lines 60-91): the initializer
list copies `mirror_inds` and `mirror_views` by the `cv::Mat` header copy
(sharing the payload), while the body explicitly resizes and `clone()`s every
`sigma_components` and every `visibilities` matrix. -/
def copyCtor (h : Heap) (p : PatchExpertsRefs) : Heap × PatchExpertsRefs :=
  let s := cloneMats2 h p.sigma_components
  let v := cloneMats2 s.1 p.visibilities
  (v.1, ⟨s.2, v.2, p.mirror_inds, p.mirror_views⟩)

end RefModel

/-! Helper lemmas shared by the claim theorems. -/

theorem getD_set_cases {α : Type} (l : List α) (i j : Nat) (v d : α) :
    (l.set i v).getD j d = l.getD j d ∨ (l.set i v).getD j d = v := by
  rcases eq_or_ne i j with h | h
  · subst h
    rw [List.getD_eq_getElem?_getD, List.getD_eq_getElem?_getD, List.getElem?_set_self']
    cases l[i]? with
    | none => exact Or.inl rfl
    | some x => exact Or.inr rfl
  · rw [List.getD_eq_getElem?_getD, List.getD_eq_getElem?_getD, List.getElem?_set_ne h]
    exact Or.inl rfl

theorem foldl_pres {α β : Type} (P : β → Prop) (f : β → α → β)
    (hf : ∀ b a, P b → P (f b a)) :
    ∀ (l : List α) (b : β), P b → P (l.foldl f b)
  | [], _, hb => hb
  | a :: l, b, hb => foldl_pres P f hf l (f b a) (hf b a hb)

theorem foldl_keeps {α β γ : Type} (f : β → α → β) (P : β → γ) :
    ∀ (l : List α) (b : β), (∀ b a, P (f b a) = P b) → P (l.foldl f b) = P b
  | [], _, _ => rfl
  | a :: l, b, hf => by rw [List.foldl_cons, foldl_keeps f P l (f b a) hf, hf]

theorem collectPred_iff (pe : Patch_experts) (vis : List (List (List Int)))
    (scale view_id n i : Nat) :
    collectPred pe vis scale view_id n i = true ↔
      ((vis.getD scale []).getD view_id []).length = n ∧
      ((vis.getD scale []).getD view_id []).getD i 0 ≠ 0 ∧
      (pe.cen_expert_intensity = [] ∨ view_id ≠ 0 ∨
        (view_id = 0 ∧ (cenAt pe scale view_id i).biases ≠ [])) := by
  unfold collectPred
  split_ifs with h1 h2 h3 h4 <;> simp_all

theorem bestLoop_spec (d : Nat → Rat) (k : Nat) (hk : 0 < k) :
    (bestLoop d k).1 < k ∧ (bestLoop d k).2 = d (bestLoop d k).1 ∧
    (∀ j, j < k → d (bestLoop d k).1 ≤ d j) ∧
    (∀ j, j < (bestLoop d k).1 → d (bestLoop d k).1 < d j) := by
  induction k with
  | zero => exact absurd hk (by omega)
  | succ k ih =>
    rcases Nat.eq_zero_or_pos k with hk0 | hk0
    · subst hk0
      refine ⟨by simp [bestLoop], by simp [bestLoop], ?_, ?_⟩
      · intro j hj
        interval_cases j
        simp [bestLoop]
      · intro j hj
        simp [bestLoop] at hj
    · obtain ⟨ih1, ih2, ih3, ih4⟩ := ih hk0
      have hkne : ¬(k = 0) := by omega
      have hB : bestLoop d (k + 1) =
          if k = 0 ∨ d k < (bestLoop d k).2 then (k, d k) else bestLoop d k := by
        simp only [bestLoop]
      by_cases hlt : d k < (bestLoop d k).2
      · have hcond : (k = 0 ∨ d k < (bestLoop d k).2) := Or.inr hlt
        rw [hB, if_pos hcond]
        rw [ih2] at hlt
        refine ⟨by omega, rfl, ?_, ?_⟩
        · intro j hj
          rcases Nat.lt_succ_iff_lt_or_eq.mp hj with hj' | hj'
          · exact le_of_lt (lt_of_lt_of_le hlt (ih3 j hj'))
          · subst hj'
            exact le_refl _
        · intro j hj
          exact lt_of_lt_of_le hlt (ih3 j hj)
      · have hcond : ¬(k = 0 ∨ d k < (bestLoop d k).2) := by
          intro h
          rcases h with h | h
          · exact hkne h
          · exact hlt h
        rw [hB, if_neg hcond]
        rw [ih2] at hlt
        refine ⟨by omega, ih2, ?_, ih4⟩
        intro j hj
        rcases Nat.lt_succ_iff_lt_or_eq.mp hj with hj' | hj'
        · exact ih3 j hj'
        · subst hj'
          exact le_of_not_lt hlt

/-! Claim theorems. -/

/-- C9: for every scale, view and landmark count `n`, if the visibility matrix
at `(scale, view)` has a number of rows different from `n`,
`Collect_visible_landmarks` returns the empty list, regardless of the
visibility values or the loaded representations. -/
theorem collect_visible_rows_mismatch_C9 (pe : Patch_experts)
    (vis : List (List (List Int))) (scale view_id n : Nat)
    (h : ((vis.getD scale []).getD view_id []).length ≠ n) :
    pe.Collect_visible_landmarks vis scale view_id n = [] := by
  unfold Patch_experts.Collect_visible_landmarks
  rw [List.filter_eq_nil_iff]
  intro i _
  intro hc
  exact h ((collectPred_iff pe vis scale view_id n i).mp hc).1

/-- C9 witness: a 2-row visibility matrix with `n = 3` yields the empty
collection. -/
theorem collect_visible_rows_mismatch_C9_witness :
    ((([[[1, 1]]] : List (List (List Int))).getD 0 []).getD 0 []).length ≠ 3 ∧
    Patch_experts.Collect_visible_landmarks default [[[1, 1]]] 0 0 3 = [] :=
  ⟨by decide, collect_visible_rows_mismatch_C9 default [[[1, 1]]] 0 0 3 (by decide)⟩

/-- C2 counterexample: with no CEN representation loaded, a visibility matrix
whose row count (2) differs from the landmark count `n = 3`, and landmark 0
marked visible, the claimed membership equivalence fails: index 0 satisfies
the claimed right-hand side yet is not in the returned list. -/
theorem collect_visible_iff_cex_C2 :
    (0 : Nat) ∉ Patch_experts.Collect_visible_landmarks default [[[1, 1]]] 0 0 3 ∧
    ((([[[1, 1]]] : List (List (List Int))).getD 0 []).getD 0 []).getD 0 0 ≠ 0 ∧
    (default : Patch_experts).cen_expert_intensity = [] := by
  refine ⟨?_, by decide, by decide⟩
  rw [collect_visible_rows_mismatch_C9 default [[[1, 1]]] 0 0 3 (by decide)]
  exact List.not_mem_nil 0

/-- C2 (amended): the list returned by `Collect_visible_landmarks` is strictly
ascending, and — provided the visibility matrix at `(scale, view)` has exactly
`n` rows — an index `i` in `0..n-1` is a member iff its visibility entry is
nonzero and (the CEN representation is not loaded, or the view is non-frontal,
or the view is frontal and landmark `i`'s own CEN slot has a non-empty bias
vector). -/
theorem collect_visible_spec_C2 (pe : Patch_experts) (vis : List (List (List Int)))
    (scale view_id n : Nat) :
    List.Pairwise (· < ·) (pe.Collect_visible_landmarks vis scale view_id n) ∧
    (((vis.getD scale []).getD view_id []).length = n →
      ∀ i, i < n →
        (i ∈ pe.Collect_visible_landmarks vis scale view_id n ↔
          ((vis.getD scale []).getD view_id []).getD i 0 ≠ 0 ∧
          (pe.cen_expert_intensity = [] ∨ view_id ≠ 0 ∨
            (view_id = 0 ∧ (cenAt pe scale view_id i).biases ≠ [])))) := by
  constructor
  · exact List.Pairwise.sublist (List.filter_sublist _) (List.pairwise_lt_range n)
  · intro hrows i hi
    unfold Patch_experts.Collect_visible_landmarks
    rw [List.mem_filter, collectPred_iff]
    simp only [List.mem_range]
    constructor
    · rintro ⟨-, -, h2, h3⟩
      exact ⟨h2, h3⟩
    · rintro ⟨h2, h3⟩
      exact ⟨hi, hrows, h2, h3⟩

/-- C2 witness: a well-formed frontal CEN configuration with mirror pair
`(0, 1)` where landmark 1 is the placeholder: the collection is `[0]`. -/
theorem collect_visible_spec_C2_witness :
    ((([[[1, 1]]] : List (List (List Int))).getD 0 []).getD 0 []).length = 2 ∧
    (0 < 2 ∧
      ((0 : Nat) ∈ Patch_experts.Collect_visible_landmarks
          { (default : Patch_experts) with
            cen_expert_intensity := [[[⟨1, 1, [1], 0⟩, ⟨1, 1, [], 0⟩]]] }
          [[[1, 1]]] 0 0 2 ↔
        ((([[[1, 1]]] : List (List (List Int))).getD 0 []).getD 0 []).getD 0 0 ≠ 0 ∧
        (({ (default : Patch_experts) with
            cen_expert_intensity := [[[⟨1, 1, [1], 0⟩, ⟨1, 1, [], 0⟩]]] } :
              Patch_experts).cen_expert_intensity = [] ∨ (0 : Nat) ≠ 0 ∨
          ((0 : Nat) = 0 ∧
            (cenAt { (default : Patch_experts) with
              cen_expert_intensity := [[[⟨1, 1, [1], 0⟩, ⟨1, 1, [], 0⟩]]] } 0 0 0).biases ≠ [])))) :=
  ⟨by decide,
    by decide,
    (collect_visible_spec_C2
      { (default : Patch_experts) with
        cen_expert_intensity := [[[⟨1, 1, [1], 0⟩, ⟨1, 1, [], 0⟩]]] }
      [[[1, 1]]] 0 0 2).2 (by decide) 0 (by decide)⟩

/-- C3: for every 6-component pose vector and every scale with at least one
view, `GetViewIdx` returns an index in `[0, viewCount)` minimizing the squared
distance between pose components 1-3 and the stored view centers, returns the
first such index on ties, and is unchanged under any modification of pose
components 0, 4 and 5. -/
theorem getViewIdx_spec_C3 (pe : Patch_experts) (pg : Fin 6 → Rat) (scale : Nat)
    (h : 0 < pe.nViews scale) :
    pe.GetViewIdx pg scale < pe.nViews scale ∧
    (∀ j, j < pe.nViews scale →
      viewDist pe pg scale (pe.GetViewIdx pg scale) ≤ viewDist pe pg scale j) ∧
    (∀ j, j < pe.GetViewIdx pg scale →
      viewDist pe pg scale (pe.GetViewIdx pg scale) < viewDist pe pg scale j) ∧
    (∀ pg' : Fin 6 → Rat, pg' 1 = pg 1 → pg' 2 = pg 2 → pg' 3 = pg 3 →
      pe.GetViewIdx pg' scale = pe.GetViewIdx pg scale) := by
  obtain ⟨h1, -, h3, h4⟩ := bestLoop_spec (viewDist pe pg scale) (pe.nViews scale) h
  refine ⟨h1, h3, h4, ?_⟩
  intro pg' e1 e2 e3
  have hd : viewDist pe pg' scale = viewDist pe pg scale := by
    funext i
    simp only [viewDist, e1, e2, e3]
  unfold Patch_experts.GetViewIdx
  rw [hd]

/-- What the per-landmark loop is allowed to write into a response slot, as a
function of the loaded representations: CEN writes carry the shared
interpolation matrix, CCNF writes are standard `Response` results (never the
`ResponseOB` placeholder), SVR writes are standard SVR results. -/
def writtenOK (pe : Patch_experts) (interp : InterpMat) (ws : Nat) (v : RVal) : Prop :=
  (pe.cen_expert_intensity ≠ [] ∧ rvalKind v = some RepKind.CEN ∧ rvalInterp v = some interp) ∨
  (pe.cen_expert_intensity = [] ∧ pe.ccnf_expert_intensity ≠ [] ∧
    ∃ e aoi, v = RVal.ccnfResp e aoi ws) ∨
  (pe.cen_expert_intensity = [] ∧ pe.ccnf_expert_intensity = [] ∧
    ∃ e aoi, v = RVal.svrResp e aoi ws)

theorem set_write_ok (resp : List RVal) (ind j : Nat) (v : RVal) (P : RVal → Prop)
    (hv : P v) :
    ((resp.set ind v).getD j RVal.unset = resp.getD j RVal.unset) ∨
      P ((resp.set ind v).getD j RVal.unset) := by
  rcases getD_set_cases resp ind j v RVal.unset with h | h
  · exact Or.inl h
  · rw [h]
    exact Or.inr hv

theorem set2_write_ok (resp : List RVal) (i1 i2 j : Nat) (v1 v2 : RVal) (P : RVal → Prop)
    (h1 : P v1) (h2 : P v2) :
    (((resp.set i1 v1).set i2 v2).getD j RVal.unset = resp.getD j RVal.unset) ∨
      P (((resp.set i1 v1).set i2 v2).getD j RVal.unset) := by
  rcases getD_set_cases (resp.set i1 v1) i2 j v2 RVal.unset with h | h
  · rw [h]
    exact set_write_ok resp i1 j v1 P h1
  · rw [h]
    exact Or.inr h2

theorem processLandmark_frame (pe : Patch_experts) (img : GrayImage) (locs : List Rat)
    (n ws scale view_id : Nat) (a1 b1 : Rat) (interp : InterpMat)
    (st : List RVal × List (RVal × RVal)) (ind j : Nat) :
    ((processLandmark pe img locs n ws scale view_id a1 b1 interp st ind).1.getD j RVal.unset
        = st.1.getD j RVal.unset) ∨
      writtenOK pe interp ws
        ((processLandmark pe img locs n ws scale view_id a1 b1 interp st ind).1.getD j
          RVal.unset) := by
  unfold processLandmark
  dsimp only
  split_ifs with h1 h2 h3 h4 h5 h6 <;>
    first
    | exact Or.inl rfl
    | exact set_write_ok _ _ _ _ _ (Or.inl ⟨h1, rfl, rfl⟩)
    | exact set2_write_ok _ _ _ _ _ _ _ (Or.inl ⟨h1, rfl, rfl⟩) (Or.inl ⟨h1, rfl, rfl⟩)
    | exact set_write_ok _ _ _ _ _
        (Or.inr (Or.inl ⟨not_not.mp h1, h6, _, _, rfl⟩))
    | exact set_write_ok _ _ _ _ _
        (Or.inr (Or.inr ⟨not_not.mp h1, not_not.mp h6, _, _, rfl⟩))

theorem foldl_writes (pe : Patch_experts) (img : GrayImage) (locs : List Rat)
    (n ws scale view_id : Nat) (a1 b1 : Rat) (interp : InterpMat) :
    ∀ (l : List Nat) (st : List RVal × List (RVal × RVal)) (j : Nat),
      ((l.foldl (processLandmark pe img locs n ws scale view_id a1 b1 interp) st).1.getD j
          RVal.unset = st.1.getD j RVal.unset) ∨
        writtenOK pe interp ws
          ((l.foldl (processLandmark pe img locs n ws scale view_id a1 b1 interp) st).1.getD j
            RVal.unset)
  | [], _, _ => Or.inl rfl
  | a :: l, st, j => by
      rw [List.foldl_cons]
      rcases foldl_writes pe img locs n ws scale view_id a1 b1 interp l
          (processLandmark pe img locs n ws scale view_id a1 b1 interp st a) j with h | h
      · rw [h]
        exact processLandmark_frame pe img locs n ws scale view_id a1 b1 interp st a j
      · exact Or.inr h

theorem response_writes (pe : Patch_experts) (ext : Externals) (init : List RVal)
    (img : GrayImage) (pdm : PDM) (pg : Fin 6 → Rat) (pl : List Rat) (ws scale : Nat) :
    ∀ j, ((pe.Response ext init img pdm pg pl ws scale).responses.getD j RVal.unset
        = init.getD j RVal.unset) ∨
      writtenOK pe
        (if pe.cen_expert_intensity ≠ [] then responseInterpMat ws else default) ws
        ((pe.Response ext init img pdm pg pl ws scale).responses.getD j RVal.unset) := by
  intro j
  unfold Patch_experts.Response
  dsimp only
  exact foldl_writes pe img _ _ ws scale _ _ _ _ _ (init, []) j

theorem writtenOK_kind (pe : Patch_experts) (interp : InterpMat) (ws : Nat) (v : RVal)
    (h : writtenOK pe interp ws v) : rvalKind v = some (dispatchKind pe) := by
  rcases h with ⟨h1, h2, -⟩ | ⟨h1, h2, e, aoi, rfl⟩ | ⟨h1, h2, e, aoi, rfl⟩
  · rw [h2]
    unfold dispatchKind
    rw [if_pos h1]
  · simp [dispatchKind, rvalKind, h1, h2]
  · simp [dispatchKind, rvalKind, h1, h2]

theorem writtenOK_interp (pe : Patch_experts) (interp : InterpMat) (ws : Nat) (v : RVal)
    (hcen : pe.cen_expert_intensity ≠ []) (h : writtenOK pe interp ws v) :
    rvalInterp v = some interp := by
  rcases h with ⟨-, -, h3⟩ | ⟨h1, -, -⟩ | ⟨h1, -, -⟩
  · exact h3
  · exact absurd h1 hcen
  · exact absurd h1 hcen

/-- C1: with the CEN representation active and the selected view frontal, for
every visible landmark `ind` whose own model slot has real parameters: if
`mirrorIndex ind = ind` the loop body invokes the normal sparse response,
writing only `responses[ind]`; otherwise it extracts a second neighborhood
anchored at the mirror partner's current location with the same rotation/scale
`(a1, b1)` and invokes the joint mirrored response call, which fills both
`responses[ind]` and `responses[mirrorIndex ind]` in that single call. -/
theorem cen_frontal_dispatch_C1 (pe : Patch_experts) (img : GrayImage) (locs : List Rat)
    (n ws scale : Nat) (a1 b1 : Rat) (interp : InterpMat)
    (resp : List RVal) (dlog : List (RVal × RVal)) (ind : Nat)
    (hcen : pe.cen_expert_intensity ≠ [])
    (hbias : (cenAt pe scale 0 ind).biases ≠ [])
    (hvis : ind ∈ pe.Collect_visible_landmarks pe.visibilities scale 0 n) :
    ((pe.mirror_inds.getD ind 0).toNat = ind →
      processLandmark pe img locs n ws scale 0 a1 b1 interp (resp, dlog) ind =
        (resp.set ind
          (RVal.cenSparse (cenAt pe scale 0 ind)
            ⟨img, ⟨a1, b1, locs.getD ind 0, locs.getD (ind + n) 0⟩,
              (ws : Int) + (cenAt pe scale 0 ind).height - 1,
              (ws : Int) + (cenAt pe scale 0 ind).width - 1⟩ interp), dlog)) ∧
    ((pe.mirror_inds.getD ind 0).toNat ≠ ind →
      processLandmark pe img locs n ws scale 0 a1 b1 interp (resp, dlog) ind =
        ((resp.set ind
            (RVal.cenJointFst (cenAt pe scale 0 ind)
              ⟨img, ⟨a1, b1, locs.getD ind 0, locs.getD (ind + n) 0⟩,
                (ws : Int) + (cenAt pe scale 0 ind).height - 1,
                (ws : Int) + (cenAt pe scale 0 ind).width - 1⟩
              ⟨img, ⟨a1, b1, locs.getD (pe.mirror_inds.getD ind 0).toNat 0,
                  locs.getD ((pe.mirror_inds.getD ind 0).toNat + n) 0⟩,
                (ws : Int) + (cenAt pe scale 0 ind).height - 1,
                (ws : Int) + (cenAt pe scale 0 ind).width - 1⟩ interp)).set
          (pe.mirror_inds.getD ind 0).toNat
            (RVal.cenJointSnd (cenAt pe scale 0 ind)
              ⟨img, ⟨a1, b1, locs.getD ind 0, locs.getD (ind + n) 0⟩,
                (ws : Int) + (cenAt pe scale 0 ind).height - 1,
                (ws : Int) + (cenAt pe scale 0 ind).width - 1⟩
              ⟨img, ⟨a1, b1, locs.getD (pe.mirror_inds.getD ind 0).toNat 0,
                  locs.getD ((pe.mirror_inds.getD ind 0).toNat + n) 0⟩,
                (ws : Int) + (cenAt pe scale 0 ind).height - 1,
                (ws : Int) + (cenAt pe scale 0 ind).width - 1⟩ interp), dlog)) := by
  constructor <;> intro hm <;> unfold processLandmark <;> dsimp only <;>
    split_ifs with h1 h2 h3 h4 <;> first | rfl | tauto

/-- C1 witness: a frontal two-landmark CEN model with mirror table `[1, 0]`;
landmark 0 takes the joint mirrored path, filling both slots in one call. -/
theorem cen_frontal_dispatch_C1_witness :
    processLandmark
        { (default : Patch_experts) with
          cen_expert_intensity := [[[⟨1, 1, [1], 0⟩, ⟨1, 1, [], 0⟩]]],
          visibilities := [[[1, 1]]],
          mirror_inds := [1, 0],
          mirror_views := [0] }
        ⟨0⟩ [10, 20, 30, 40] 2 3 0 0 1 0 ⟨3, 3, 13, 13⟩
        ([RVal.unset, RVal.unset], []) 0 =
      ([RVal.cenJointFst ⟨1, 1, [1], 0⟩ ⟨⟨0⟩, ⟨1, 0, 10, 30⟩, 3, 3⟩
          ⟨⟨0⟩, ⟨1, 0, 20, 40⟩, 3, 3⟩ ⟨3, 3, 13, 13⟩,
        RVal.cenJointSnd ⟨1, 1, [1], 0⟩ ⟨⟨0⟩, ⟨1, 0, 10, 30⟩, 3, 3⟩
          ⟨⟨0⟩, ⟨1, 0, 20, 40⟩, 3, 3⟩ ⟨3, 3, 13, 13⟩], []) :=
  (cen_frontal_dispatch_C1
    { (default : Patch_experts) with
      cen_expert_intensity := [[[⟨1, 1, [1], 0⟩, ⟨1, 1, [], 0⟩]]],
      visibilities := [[[1, 1]]],
      mirror_inds := [1, 0],
      mirror_views := [0] }
    ⟨0⟩ [10, 20, 30, 40] 2 3 0 1 0 ⟨3, 3, 13, 13⟩
    [RVal.unset, RVal.unset] [] 0 (by decide) (by decide) (by decide)).2 (by decide)

/-- C8: on every `Response` call with the CEN collection non-empty, the
precomputed interpolation matrix has response size `windowSize × windowSize`
and area of interest `windowSize + 10` in each dimension, and every response
slot the loop writes carries exactly this matrix. -/
theorem interp_matrix_spec_C8 (pe : Patch_experts) (ext : Externals) (init : List RVal)
    (img : GrayImage) (pdm : PDM) (pg : Fin 6 → Rat) (pl : List Rat) (ws scale : Nat)
    (hcen : pe.cen_expert_intensity ≠ []) :
    responseInterpMat ws =
      interpolationMatrix (ws : Int) (ws : Int) ((ws : Int) + 10) ((ws : Int) + 10) ∧
    ∀ j, ((pe.Response ext init img pdm pg pl ws scale).responses.getD j RVal.unset
        = init.getD j RVal.unset) ∨
      rvalInterp ((pe.Response ext init img pdm pg pl ws scale).responses.getD j RVal.unset)
        = some (responseInterpMat ws) := by
  constructor
  · simp only [responseInterpMat, interpolationMatrix, InterpMat.mk.injEq]
    omega
  · intro j
    have h := response_writes pe ext init img pdm pg pl ws scale j
    rw [if_pos hcen] at h
    rcases h with h | h
    · exact Or.inl h
    · exact Or.inr (writtenOK_interp pe (responseInterpMat ws) ws _ hcen h)

/-- C8 witness: with a CEN expert loaded and `windowSize = 3`, the matrix is
`3 × 3` responses over a `13 × 13` area. -/
theorem interp_matrix_spec_C8_witness :
    ({ (default : Patch_experts) with
        cen_expert_intensity := [[[⟨1, 1, [1], 0⟩]]] } :
      Patch_experts).cen_expert_intensity ≠ [] ∧
    responseInterpMat 3 = interpolationMatrix 3 3 13 13 :=
  ⟨by decide,
    (interp_matrix_spec_C8
      { (default : Patch_experts) with cen_expert_intensity := [[[⟨1, 1, [1], 0⟩]]] }
      ⟨fun _ _ => default, fun m => m⟩ [] ⟨0⟩ ⟨1, fun _ _ => []⟩ (fun _ => 0) [] 3 0
      (by decide)).1⟩

/-- C10: in the CCNF dispatch branch, the loop body writes
`patch_expert_responses[ind]` with the standard `Response` result alone and
records the `ResponseOB` result only in the local placeholder that feeds the
diagnostic norm printout; over a whole `Response` call in CCNF mode, every
changed slot of the output array is a standard `Response` result (never a
`ResponseOB` value). -/
theorem ccnf_branch_responseOB_C10 (pe : Patch_experts) (img : GrayImage) (locs : List Rat)
    (n ws scale view_id : Nat) (a1 b1 : Rat) (interp : InterpMat)
    (resp : List RVal) (dlog : List (RVal × RVal)) (ind : Nat)
    (ext : Externals) (init : List RVal) (pdm : PDM) (pg : Fin 6 → Rat) (pl : List Rat)
    (hcen : pe.cen_expert_intensity = [])
    (hccnf : pe.ccnf_expert_intensity ≠ []) :
    processLandmark pe img locs n ws scale view_id a1 b1 interp (resp, dlog) ind =
      (resp.set ind
        (RVal.ccnfResp (ccnfAt pe scale view_id ind)
          ⟨img, ⟨a1, b1, locs.getD ind 0, locs.getD (ind + n) 0⟩,
            (ws : Int) + (ccnfAt pe scale view_id ind).height - 1,
            (ws : Int) + (ccnfAt pe scale view_id ind).width - 1⟩ ws),
       dlog ++
        [(RVal.ccnfOB (ccnfAt pe scale view_id ind)
            ⟨img, ⟨a1, b1, locs.getD ind 0, locs.getD (ind + n) 0⟩,
              (ws : Int) + (ccnfAt pe scale view_id ind).height - 1,
              (ws : Int) + (ccnfAt pe scale view_id ind).width - 1⟩ ws,
          RVal.ccnfResp (ccnfAt pe scale view_id ind)
            ⟨img, ⟨a1, b1, locs.getD ind 0, locs.getD (ind + n) 0⟩,
              (ws : Int) + (ccnfAt pe scale view_id ind).height - 1,
              (ws : Int) + (ccnfAt pe scale view_id ind).width - 1⟩ ws)]) ∧
    ∀ j, ((pe.Response ext init img pdm pg pl ws scale).responses.getD j RVal.unset
        = init.getD j RVal.unset) ∨
      ∃ e aoi, (pe.Response ext init img pdm pg pl ws scale).responses.getD j RVal.unset
        = RVal.ccnfResp e aoi ws := by
  constructor
  · unfold processLandmark
    dsimp only
    split_ifs <;> first | rfl | tauto
  · intro j
    rcases response_writes pe ext init img pdm pg pl ws scale j with h | h
    · exact Or.inl h
    · rcases h with ⟨h1, -, -⟩ | ⟨-, -, e, aoi, he⟩ | ⟨-, h2, -⟩
      · exact absurd hcen h1
      · exact Or.inr ⟨e, aoi, he⟩
      · exact absurd hccnf (not_not.mpr h2)

/-- C10 witness: with one CCNF expert loaded, the loop body writes the
standard response into slot 0 and the `ResponseOB` value only into the
diagnostic log. -/
theorem ccnf_branch_responseOB_C10_witness :
    processLandmark
        { (default : Patch_experts) with
          ccnf_expert_intensity := [[[⟨1, 1, 0⟩]]], visibilities := [[[1]]] }
        ⟨0⟩ [10, 30] 1 3 0 0 1 0 default ([RVal.unset], []) 0 =
      ([RVal.ccnfResp ⟨1, 1, 0⟩ ⟨⟨0⟩, ⟨1, 0, 10, 30⟩, 3, 3⟩ 3],
       [(RVal.ccnfOB ⟨1, 1, 0⟩ ⟨⟨0⟩, ⟨1, 0, 10, 30⟩, 3, 3⟩ 3,
         RVal.ccnfResp ⟨1, 1, 0⟩ ⟨⟨0⟩, ⟨1, 0, 10, 30⟩, 3, 3⟩ 3)]) :=
  (ccnf_branch_responseOB_C10
    { (default : Patch_experts) with
      ccnf_expert_intensity := [[[⟨1, 1, 0⟩]]], visibilities := [[[1]]] }
    ⟨0⟩ [10, 30] 1 3 0 0 1 0 default [RVal.unset] [] 0
    ⟨fun _ _ => default, fun m => m⟩ [] ⟨1, fun _ _ => []⟩ (fun _ => 0) []
    (by decide) (by decide)).1

/-! Framing lemmas for the `Read` stages. -/

theorem resizeD_length {α : Type} [Inhabited α] (l : List α) (n : Nat) :
    (resizeD l n).length = n := by
  simp [resizeD]

/-- The three early-termination arrays bundled, for framing lemmas. -/
def earlyTriple (pe : Patch_experts) : List Rat × List Rat × List Rat :=
  (pe.early_term_weights, pe.early_term_biases, pe.early_term_cutoffs)

theorem readSVRStage_cen (pe : Patch_experts) (files : List (Option SVRFile)) :
    (readSVRStage pe files).cen_expert_intensity = pe.cen_expert_intensity := by
  unfold readSVRStage
  exact foldl_keeps _ (fun (q : Patch_experts) => q.cen_expert_intensity) _ _ (by intro b a; rfl)

theorem readSVRStage_ccnf (pe : Patch_experts) (files : List (Option SVRFile)) :
    (readSVRStage pe files).ccnf_expert_intensity = pe.ccnf_expert_intensity := by
  unfold readSVRStage
  exact foldl_keeps _ (fun (q : Patch_experts) => q.ccnf_expert_intensity) _ _ (by intro b a; rfl)

theorem readSVRStage_early (pe : Patch_experts) (files : List (Option SVRFile)) :
    earlyTriple (readSVRStage pe files) = earlyTriple pe := by
  unfold readSVRStage
  exact foldl_keeps _ earlyTriple _ _ (by intro b a; rfl)

theorem readCCNFStage_cen (pe : Patch_experts) (files : List (Option CCNFFile)) :
    (readCCNFStage pe files).cen_expert_intensity = pe.cen_expert_intensity := by
  unfold readCCNFStage
  refine (foldl_keeps _ (fun (q : Patch_experts) => q.cen_expert_intensity) _ _ (by intro b a; rfl)).trans ?_
  split <;> rfl

theorem readCCNFStage_early (pe : Patch_experts) (files : List (Option CCNFFile)) :
    earlyTriple (readCCNFStage pe files) = earlyTriple pe := by
  unfold readCCNFStage
  refine (foldl_keeps _ earlyTriple _ _ (by intro b a; rfl)).trans ?_
  split <;> rfl

theorem readCCNFStage_ccnf_length (pe : Patch_experts) (files : List (Option CCNFFile))
    (h : files ≠ []) :
    (readCCNFStage pe files).ccnf_expert_intensity.length = files.length := by
  unfold readCCNFStage
  refine (foldl_keeps _ (fun (q : Patch_experts) => q.ccnf_expert_intensity.length) _ _ ?_).trans ?_
  · intro b a
    simp
  · have hpos : 0 < files.length := List.length_pos.mpr h
    rw [if_pos hpos]
    simp [resizeD_length]

theorem readCENStage_cen (pe : Patch_experts) (files : List (Option CENFile)) :
    (readCENStage pe files).cen_expert_intensity.length =
      if 0 < files.length then files.length else pe.cen_expert_intensity.length := by
  unfold readCENStage
  refine (foldl_keeps _ (fun (q : Patch_experts) => q.cen_expert_intensity.length) _ _ ?_).trans ?_
  · intro b a
    simp
  · split <;> simp [resizeD_length]

theorem readCENStage_early (pe : Patch_experts) (files : List (Option CENFile)) :
    earlyTriple (readCENStage pe files) = earlyTriple pe := by
  unfold readCENStage
  refine (foldl_keeps _ earlyTriple _ _ (by intro b a; rfl)).trans ?_
  split <;> rfl

theorem readCENStage_nil (pe : Patch_experts) : readCENStage pe [] = pe := rfl

theorem readCCNFStage_nil (pe : Patch_experts) : readCCNFStage pe [] = pe := rfl

theorem earlyTermStage_cen (pe : Patch_experts) (f : Option (Nat → Rat)) :
    (earlyTermStage pe f).cen_expert_intensity = pe.cen_expert_intensity := by
  cases f <;> rfl

theorem earlyTermStage_ccnf (pe : Patch_experts) (f : Option (Nat → Rat)) :
    (earlyTermStage pe f).ccnf_expert_intensity = pe.ccnf_expert_intensity := by
  cases f <;> rfl

/-- C4: representation dispatch follows the fixed priority CEN > CCNF > SVR,
determined solely by which expert collection is non-empty: every slot a
`Response` call writes carries the representation `dispatchKind` selects; and
`Read` with any CEN locations makes all subsequent calls dispatch CEN (even
with SVR/CCNF data resident), with CCNF locations and an empty CEN collection
dispatch CCNF, and with neither dispatch SVR. -/
theorem dispatch_priority_C4 :
    (∀ (pe : Patch_experts) (ext : Externals) (init : List RVal) (img : GrayImage)
        (pdm : PDM) (pg : Fin 6 → Rat) (pl : List Rat) (ws scale j : Nat),
      ((pe.Response ext init img pdm pg pl ws scale).responses.getD j RVal.unset
          = init.getD j RVal.unset) ∨
        rvalKind ((pe.Response ext init img pdm pg pl ws scale).responses.getD j RVal.unset)
          = some (dispatchKind pe)) ∧
    (∀ (pe : Patch_experts) (svr : List (Option SVRFile)) (ccnf : List (Option CCNFFile))
        (cen : List (Option CENFile)) (et : Option (Nat → Rat)), cen ≠ [] →
      dispatchKind (pe.Read svr ccnf cen et) = RepKind.CEN) ∧
    (∀ (pe : Patch_experts) (svr : List (Option SVRFile)) (ccnf : List (Option CCNFFile))
        (et : Option (Nat → Rat)), pe.cen_expert_intensity = [] → ccnf ≠ [] →
      dispatchKind (pe.Read svr ccnf [] et) = RepKind.CCNF) ∧
    (∀ (pe : Patch_experts) (svr : List (Option SVRFile)) (et : Option (Nat → Rat)),
      pe.cen_expert_intensity = [] → pe.ccnf_expert_intensity = [] →
      dispatchKind (pe.Read svr [] [] et) = RepKind.SVR) := by
  refine ⟨?_, ?_, ?_, ?_⟩
  · intro pe ext init img pdm pg pl ws scale j
    rcases response_writes pe ext init img pdm pg pl ws scale j with h | h
    · exact Or.inl h
    · exact Or.inr (writtenOK_kind pe _ ws _ h)
  · intro pe svr ccnf cen et hcen
    have hne : (pe.Read svr ccnf cen et).cen_expert_intensity ≠ [] := by
      unfold Patch_experts.Read
      rw [Ne, ← List.length_eq_zero]
      rw [earlyTermStage_cen, readCENStage_cen]
      rw [if_pos (List.length_pos.mpr hcen)]
      have := List.length_pos.mpr hcen
      omega
    unfold dispatchKind
    rw [if_pos hne]
  · intro pe svr ccnf et hcen hccnf
    have hcen' : (pe.Read svr ccnf [] et).cen_expert_intensity = [] := by
      unfold Patch_experts.Read
      rw [earlyTermStage_cen, readCENStage_nil, readCCNFStage_cen, readSVRStage_cen]
      exact hcen
    have hccnf' : (pe.Read svr ccnf [] et).ccnf_expert_intensity ≠ [] := by
      unfold Patch_experts.Read
      rw [Ne, ← List.length_eq_zero]
      rw [earlyTermStage_ccnf, readCENStage_nil, readCCNFStage_ccnf_length _ _ hccnf]
      have := List.length_pos.mpr hccnf
      omega
    unfold dispatchKind
    rw [if_neg (not_not.mpr hcen'), if_pos hccnf']
  · intro pe svr et hcen hccnf
    have hcen' : (pe.Read svr [] [] et).cen_expert_intensity = [] := by
      unfold Patch_experts.Read
      rw [earlyTermStage_cen, readCENStage_nil, readCCNFStage_nil, readSVRStage_cen]
      exact hcen
    have hccnf' : (pe.Read svr [] [] et).ccnf_expert_intensity = [] := by
      unfold Patch_experts.Read
      rw [earlyTermStage_ccnf, readCENStage_nil, readCCNFStage_nil, readSVRStage_ccnf]
      exact hccnf
    unfold dispatchKind
    rw [if_neg (not_not.mpr hcen'), if_neg (not_not.mpr hccnf')]

/-- A concrete SVR model file: one view, one landmark. -/
def svrFileA : SVRFile :=
  ⟨1, 1, fun _ => (0, 0, 0), fun _ => [1], fun _ _ => default⟩

/-- A concrete CEN model file: one view, one self-mirrored landmark. -/
def cenFileA : CENFile :=
  ⟨1, 1, fun _ => (0, 0, 0), fun _ => [1], [0], [0], fun _ _ => ⟨1, 1, [1], 0⟩⟩

/-- C4 witness: loading only an SVR path dispatches SVR; loading an SVR path
together with a CEN path dispatches CEN. -/
theorem dispatch_priority_C4_witness :
    dispatchKind (Patch_experts.Read default [some svrFileA] [] [] none) = RepKind.SVR ∧
    dispatchKind
        (Patch_experts.Read default [some svrFileA] [] [some cenFileA] none) = RepKind.CEN :=
  ⟨dispatch_priority_C4.2.2.2 default [some svrFileA] none (by decide) (by decide),
    dispatch_priority_C4.2.1 default [some svrFileA] [] [some cenFileA] none
      (List.cons_ne_nil _ _)⟩

/-- C5 counterexample: load a valid SVR model and an unopenable CEN model
file.  The claim's consequence fails: the CEN loader leaves its outputs
untouched, but `Read` resized the CEN collection before invoking it, so the
CEN representation is not left empty and dispatch selects CEN instead of
falling through to SVR. -/
theorem loader_fallthrough_cex_C5 :
    (Patch_experts.Read default [some svrFileA] [] [none] none).cen_expert_intensity ≠ [] ∧
    dispatchKind (Patch_experts.Read default [some svrFileA] [] [none] none) = RepKind.CEN := by
  constructor
  · decide
  · decide

/-- C5 (amended): each of the three loaders, on a file that cannot be opened,
raises no exception (it is a total function) and leaves every output parameter
unchanged from its value on entry; however the per-scale slots it leaves empty
do not empty the representation's collection — `Read` resizes the collection
before invoking the loader, so the failed representation still takes dispatch
priority rather than falling through. -/
theorem loader_failure_unchanged_C5 :
    (∀ (c : List Vec3) (v : List (List Int)) (p : List (List Multi_SVR_patch_expert))
        (s : Rat), Read_SVR_patch_experts none c v p s = (c, v, p, s)) ∧
    (∀ (c : List Vec3) (v : List (List Int)) (p : List (List CCNF_patch_expert)) (s : Rat)
        (sig : List (List MatF)),
      Read_CCNF_patch_experts none c v p s sig = (c, v, p, s, sig)) ∧
    (∀ (c : List Vec3) (v : List (List Int)) (p : List (List CEN_patch_expert)) (s : Rat)
        (mi mv : List Int),
      Read_CEN_patch_experts none c v p s mi mv = (c, v, p, s, mi, mv)) ∧
    ((Patch_experts.Read default [] [] [none] none).cen_expert_intensity.getD 0 [] = [] ∧
      (Patch_experts.Read default [] [] [none] none).cen_expert_intensity ≠ []) := by
  refine ⟨fun c v p s => rfl, fun c v p s sig => rfl, fun c v p s mi mv => rfl, ?_, ?_⟩
  · decide
  · decide

/-- A concrete SVR model file with two views and three landmarks. -/
def svrFile2v3 : SVRFile :=
  ⟨1, 2, fun _ => (0, 0, 0), fun _ => [1, 1, 1], fun _ _ => default⟩

/-- C7 counterexample: with a two-view, three-landmark SVR model at scale 0
and a supplied early-termination file, the loaded weights array has one entry
per view of scale 0 (two entries), not one per landmark (three), refuting the
per-landmark count in the claim. -/
theorem early_term_per_view_cex_C7 :
    (Patch_experts.Read default [some svrFile2v3] [] []
        (some (fun i => (i : Rat)))).early_term_weights.length = 2 ∧
    (((Patch_experts.Read default [some svrFile2v3] [] []
        (some (fun i => (i : Rat)))).visibilities.getD 0 []).getD 0 []).length = 3 ∧
    (2 : Nat) ≠ 3 := by
  refine ⟨?_, ?_, by decide⟩
  · decide
  · decide

/-- C7 (amended): the early-termination coefficients are loaded iff the
auxiliary file argument to `Read` is supplied (non-empty path); when loaded,
the weights, biases and cutoffs arrays each contain exactly one entry per view
of scale 0 (`centers[0].size()` entries, not one per landmark), read in the
order all weights, then all biases, then all cutoffs; when the path is empty
all three arrays remain empty. -/
theorem early_term_spec_C7 (pe : Patch_experts) (svr : List (Option SVRFile))
    (ccnf : List (Option CCNFFile)) (cen : List (Option CENFile)) (f : Nat → Rat)
    (hw : pe.early_term_weights = []) (hb : pe.early_term_biases = [])
    (hc : pe.early_term_cutoffs = []) :
    ((pe.Read svr ccnf cen (some f)).early_term_weights =
      (List.range
          ((readCENStage (readCCNFStage (readSVRStage pe svr) ccnf) cen).nViews 0)).map
        (fun i => f i)) ∧
    ((pe.Read svr ccnf cen (some f)).early_term_biases =
      (List.range
          ((readCENStage (readCCNFStage (readSVRStage pe svr) ccnf) cen).nViews 0)).map
        (fun i =>
          f ((readCENStage (readCCNFStage (readSVRStage pe svr) ccnf) cen).nViews 0 + i))) ∧
    ((pe.Read svr ccnf cen (some f)).early_term_cutoffs =
      (List.range
          ((readCENStage (readCCNFStage (readSVRStage pe svr) ccnf) cen).nViews 0)).map
        (fun i =>
          f (2 * (readCENStage (readCCNFStage (readSVRStage pe svr) ccnf) cen).nViews 0 + i))) ∧
    ((pe.Read svr ccnf cen none).early_term_weights = [] ∧
      (pe.Read svr ccnf cen none).early_term_biases = [] ∧
      (pe.Read svr ccnf cen none).early_term_cutoffs = []) := by
  have hpre : earlyTriple (readCENStage (readCCNFStage (readSVRStage pe svr) ccnf) cen) =
      earlyTriple pe := by
    rw [readCENStage_early, readCCNFStage_early, readSVRStage_early]
  have h1 : (readCENStage (readCCNFStage (readSVRStage pe svr) ccnf) cen).early_term_weights
      = [] := by
    have := congrArg (fun t => t.1) hpre
    simpa [earlyTriple, hw] using this
  have h2 : (readCENStage (readCCNFStage (readSVRStage pe svr) ccnf) cen).early_term_biases
      = [] := by
    have := congrArg (fun t => t.2.1) hpre
    simpa [earlyTriple, hb] using this
  have h3 : (readCENStage (readCCNFStage (readSVRStage pe svr) ccnf) cen).early_term_cutoffs
      = [] := by
    have := congrArg (fun t => t.2.2) hpre
    simpa [earlyTriple, hc] using this
  refine ⟨?_, ?_, ?_, ?_, ?_, ?_⟩ <;>
    unfold Patch_experts.Read earlyTermStage <;>
    simp only [Patch_experts.nViews, h1, h2, h3, List.nil_append]

/-- C7 witness: the two-view scenario loads weights `[f 0, f 1]`. -/
theorem early_term_spec_C7_witness :
    (Patch_experts.Read default [some svrFile2v3] [] []
        (some (fun i => (i : Rat)))).early_term_weights =
      (List.range
          ((readCENStage (readCCNFStage (readSVRStage default [some svrFile2v3]) []) []).nViews
            0)).map (fun i => (i : Rat)) :=
  (early_term_spec_C7 default [some svrFile2v3] [] [] (fun i => (i : Rat)) rfl rfl rfl).1

/-! Lemmas about the reference-semantics clone model, for C6. -/

namespace RefModel

theorem cloneMats_len : ∀ (rs : List Nat) (h : Heap),
    (cloneMats h rs).1.data.length = h.data.length + rs.length
  | [], _ => rfl
  | r :: rs, h => by
      show (cloneMats (h.clone r).1 rs).1.data.length = h.data.length + (rs.length + 1)
      rw [cloneMats_len rs (h.clone r).1]
      simp only [Heap.clone, List.length_append, List.length_cons, List.length_nil]
      omega

theorem cloneMats_out_len : ∀ (rs : List Nat) (h : Heap),
    (cloneMats h rs).2.length = rs.length
  | [], _ => rfl
  | r :: rs, h => by
      show (cloneMats (h.clone r).1 rs).2.length + 1 = rs.length + 1
      rw [cloneMats_out_len rs (h.clone r).1]

theorem read_append_lt (h : Heap) (v : List Int) (x : Nat) (hx : x < h.data.length) :
    Heap.read ⟨h.data ++ [v]⟩ x = h.read x := by
  simp only [Heap.read]
  rw [List.getD_eq_getElem?_getD, List.getD_eq_getElem?_getD, List.getElem?_append_left hx]

theorem cloneMats_fresh : ∀ (rs : List Nat) (h : Heap) (x : Nat),
    x ∈ (cloneMats h rs).2 → h.data.length ≤ x ∧ x < (cloneMats h rs).1.data.length
  | [], _, x, hx => absurd hx (List.not_mem_nil x)
  | r :: rs, h, x, hx => by
      have hlen : (h.clone r).1.data.length = h.data.length + 1 := by
        simp [Heap.clone]
      have htot : (cloneMats (h.clone r).1 rs).1.data.length =
          h.data.length + 1 + rs.length := by
        rw [cloneMats_len, hlen]
      rcases List.mem_cons.mp hx with h1 | h1
      · subst h1
        constructor
        · exact le_refl _
        · show h.data.length < (cloneMats (h.clone r).1 rs).1.data.length
          omega
      · obtain ⟨ha, hb⟩ := cloneMats_fresh rs (h.clone r).1 x h1
        constructor
        · omega
        · exact hb

theorem cloneMats_pres : ∀ (rs : List Nat) (h : Heap) (x : Nat),
    x < h.data.length → (cloneMats h rs).1.read x = h.read x
  | [], _, _, _ => rfl
  | r :: rs, h, x, hx => by
      have h1 : (h.clone r).1.read x = h.read x := read_append_lt h (h.read r) x hx
      have h2 : x < (h.clone r).1.data.length := by
        have hlen : (h.clone r).1.data.length = h.data.length + 1 := by
          simp [Heap.clone]
        omega
      calc (cloneMats h (r :: rs)).1.read x
          = (cloneMats (h.clone r).1 rs).1.read x := rfl
        _ = (h.clone r).1.read x := cloneMats_pres rs (h.clone r).1 x h2
        _ = h.read x := h1

theorem cloneMats_content : ∀ (rs : List Nat) (h : Heap),
    (∀ x ∈ rs, x < h.data.length) → ∀ j, j < rs.length →
      (cloneMats h rs).1.read ((cloneMats h rs).2.getD j 0) = h.read (rs.getD j 0)
  | [], _, _, j, hj => absurd hj (by simp)
  | r :: rs, h, hb, 0, _ => by
      have hlen : (h.clone r).1.data.length = h.data.length + 1 := by
        simp [Heap.clone]
      have hstep : (h.clone r).1.read h.data.length = h.read r := by
        simp only [Heap.clone, Heap.read]
        rw [List.getD_eq_getElem?_getD, List.getElem?_concat_length]
        rfl
      calc (cloneMats h (r :: rs)).1.read ((cloneMats h (r :: rs)).2.getD 0 0)
          = (cloneMats (h.clone r).1 rs).1.read h.data.length := rfl
        _ = (h.clone r).1.read h.data.length := cloneMats_pres rs (h.clone r).1 _ (by rw [hlen]; omega)
        _ = h.read r := hstep
  | r :: rs, h, hb, j + 1, hj => by
      have hb' : ∀ x ∈ rs, x < (h.clone r).1.data.length := by
        intro x hx
        have h0 := hb x (List.mem_cons_of_mem _ hx)
        have hlen2 : (h.clone r).1.data.length = h.data.length + 1 := by
          simp [Heap.clone]
        omega
      have hj' : j < rs.length := by
        simp only [List.length_cons] at hj
        omega
      have hx : rs.getD j 0 < h.data.length := by
        rw [List.getD_eq_getElem _ _ hj']
        exact hb _ (List.mem_cons_of_mem _ (List.getElem_mem hj'))
      have hsingle : (h.clone r).1.read (rs.getD j 0) = h.read (rs.getD j 0) :=
        read_append_lt h (h.read r) (rs.getD j 0) hx
      calc (cloneMats h (r :: rs)).1.read ((cloneMats h (r :: rs)).2.getD (j + 1) 0)
          = (cloneMats (h.clone r).1 rs).1.read ((cloneMats (h.clone r).1 rs).2.getD j 0) :=
            rfl
        _ = (h.clone r).1.read (rs.getD j 0) :=
            cloneMats_content rs (h.clone r).1 hb' j hj'
        _ = h.read (rs.getD j 0) := hsingle

theorem cloneMats2_len : ∀ (rss : List (List Nat)) (h : Heap),
    (cloneMats2 h rss).1.data.length = h.data.length + rss.flatten.length
  | [], _ => rfl
  | rs :: rss, h => by
      show (cloneMats2 (cloneMats h rs).1 rss).1.data.length = _
      rw [cloneMats2_len rss (cloneMats h rs).1, cloneMats_len]
      simp only [List.flatten_cons, List.length_append]
      omega

theorem cloneMats2_out_len : ∀ (rss : List (List Nat)) (h : Heap),
    (cloneMats2 h rss).2.length = rss.length
  | [], _ => rfl
  | rs :: rss, h => by
      show (cloneMats2 (cloneMats h rs).1 rss).2.length + 1 = rss.length + 1
      rw [cloneMats2_out_len rss (cloneMats h rs).1]

theorem cloneMats2_out_inner_len : ∀ (rss : List (List Nat)) (h : Heap) (i : Nat),
    ((cloneMats2 h rss).2.getD i []).length = (rss.getD i []).length
  | [], _, i => by cases i <;> rfl
  | rs :: rss, h, 0 => cloneMats_out_len rs h
  | rs :: rss, h, i + 1 => cloneMats2_out_inner_len rss (cloneMats h rs).1 i

theorem cloneMats2_fresh : ∀ (rss : List (List Nat)) (h : Heap) (x : Nat),
    x ∈ (cloneMats2 h rss).2.flatten →
      h.data.length ≤ x ∧ x < (cloneMats2 h rss).1.data.length
  | [], _, x, hx => absurd hx (by simp [cloneMats2])
  | rs :: rss, h, x, hx => by
      have hge : h.data.length ≤ (cloneMats h rs).1.data.length := by
        rw [cloneMats_len]
        omega
      have hge2 : (cloneMats h rs).1.data.length ≤
          (cloneMats2 (cloneMats h rs).1 rss).1.data.length := by
        rw [cloneMats2_len]
        omega
      have hx' : x ∈ (cloneMats h rs).2 ∨ x ∈ (cloneMats2 (cloneMats h rs).1 rss).2.flatten := by
        have : x ∈ (cloneMats h rs).2 ++ (cloneMats2 (cloneMats h rs).1 rss).2.flatten := by
          simpa [cloneMats2] using hx
        exact List.mem_append.mp this
      rcases hx' with h1 | h1
      · obtain ⟨ha, hb⟩ := cloneMats_fresh rs h x h1
        exact ⟨ha, lt_of_lt_of_le hb hge2⟩
      · obtain ⟨ha, hb⟩ := cloneMats2_fresh rss (cloneMats h rs).1 x h1
        exact ⟨le_trans hge ha, hb⟩

theorem cloneMats2_pres : ∀ (rss : List (List Nat)) (h : Heap) (x : Nat),
    x < h.data.length → (cloneMats2 h rss).1.read x = h.read x
  | [], _, _, _ => rfl
  | rs :: rss, h, x, hx => by
      have h2 : x < (cloneMats h rs).1.data.length := by
        rw [cloneMats_len]
        omega
      calc (cloneMats2 h (rs :: rss)).1.read x
          = (cloneMats2 (cloneMats h rs).1 rss).1.read x := rfl
        _ = (cloneMats h rs).1.read x := cloneMats2_pres rss (cloneMats h rs).1 x h2
        _ = h.read x := cloneMats_pres rs h x hx

theorem cloneMats2_content : ∀ (rss : List (List Nat)) (h : Heap),
    (∀ x ∈ rss.flatten, x < h.data.length) → ∀ i j, i < rss.length →
      j < (rss.getD i []).length →
      (cloneMats2 h rss).1.read (((cloneMats2 h rss).2.getD i []).getD j 0) =
        h.read ((rss.getD i []).getD j 0)
  | [], _, _, i, _, hi, _ => absurd hi (by simp)
  | rs :: rss, h, hb, 0, j, _, hj => by
      have hbrs : ∀ x ∈ rs, x < h.data.length := by
        intro x hx
        exact hb x (List.mem_flatten_of_mem (List.mem_cons_self _ _) hx)
      have hj' : j < (cloneMats h rs).2.length := by
        rw [cloneMats_out_len]
        simpa using hj
      have hfr : (cloneMats h rs).2.getD j 0 < (cloneMats h rs).1.data.length := by
        have hmem : (cloneMats h rs).2.getD j 0 ∈ (cloneMats h rs).2 := by
          rw [List.getD_eq_getElem _ _ hj']
          exact List.getElem_mem hj'
        exact (cloneMats_fresh rs h _ hmem).2
      calc (cloneMats2 h (rs :: rss)).1.read
            (((cloneMats2 h (rs :: rss)).2.getD 0 []).getD j 0)
          = (cloneMats2 (cloneMats h rs).1 rss).1.read ((cloneMats h rs).2.getD j 0) := rfl
        _ = (cloneMats h rs).1.read ((cloneMats h rs).2.getD j 0) :=
            cloneMats2_pres rss (cloneMats h rs).1 _ hfr
        _ = h.read (rs.getD j 0) := cloneMats_content rs h hbrs j (by simpa using hj)
  | rs :: rss, h, hb, i + 1, j, hi, hj => by
      have hb' : ∀ x ∈ rss.flatten, x < (cloneMats h rs).1.data.length := by
        intro x hx
        have h1 : x < h.data.length := by
          refine hb x ?_
          rcases List.mem_flatten.mp hx with ⟨l, hl, hxl⟩
          exact List.mem_flatten_of_mem (List.mem_cons_of_mem _ hl) hxl
        rw [cloneMats_len]
        omega
      have hi' : i < rss.length := by
        simpa using hi
      have hj' : j < (rss.getD i []).length := hj
      have hx : (rss.getD i []).getD j 0 < h.data.length := by
        rcases Nat.lt_or_ge i rss.length with hcase | hcase
        · refine hb _ ?_
          have hmem1 : rss.getD i [] ∈ rss := by
            rw [List.getD_eq_getElem _ _ hcase]
            exact List.getElem_mem hcase
          have hmem2 : (rss.getD i []).getD j 0 ∈ rss.getD i [] := by
            rw [List.getD_eq_getElem _ _ hj']
            exact List.getElem_mem hj'
          exact List.mem_flatten_of_mem (List.mem_cons_of_mem _ hmem1) hmem2
        · omega
      calc (cloneMats2 h (rs :: rss)).1.read
            (((cloneMats2 h (rs :: rss)).2.getD (i + 1) []).getD j 0)
          = (cloneMats2 (cloneMats h rs).1 rss).1.read
              (((cloneMats2 (cloneMats h rs).1 rss).2.getD i []).getD j 0) := rfl
        _ = (cloneMats h rs).1.read ((rss.getD i []).getD j 0) :=
            cloneMats2_content rss (cloneMats h rs).1 hb' i j hi' hj'
        _ = h.read ((rss.getD i []).getD j 0) := cloneMats_pres rs h _ hx

end RefModel

/-- C6 counterexample: a store whose `mirror_inds` header points at payload
`[7]`.  The copy constructor copies the header, so writing `[5]` through the
copy's `mirror_inds` changes what the original's `mirror_inds` reads — the
claimed "no reference-counted matrix storage is shared between the original
and the copy; mutating any matrix member of one copy leaves the other copy
unchanged" fails on the mirror tables. -/
theorem copy_shares_mirror_cex_C6 :
    (RefModel.copyCtor ⟨[[7]]⟩ ⟨[], [], 0, 0⟩).2.mirror_inds =
      (⟨[], [], 0, 0⟩ : RefModel.PatchExpertsRefs).mirror_inds ∧
    ((RefModel.copyCtor ⟨[[7]]⟩ ⟨[], [], 0, 0⟩).1.write
        (RefModel.copyCtor ⟨[[7]]⟩ ⟨[], [], 0, 0⟩).2.mirror_inds [5]).read
      (⟨[], [], 0, 0⟩ : RefModel.PatchExpertsRefs).mirror_inds = [5] ∧
    RefModel.Heap.read ⟨[[7]]⟩ (⟨[], [], 0, 0⟩ : RefModel.PatchExpertsRefs).mirror_inds
      = [7] := by
  refine ⟨rfl, ?_, rfl⟩
  decide

/-- C6 (amended): the copy constructor deep-copies the `sigma_components` and
`visibilities` matrices — the copy's headers are fresh allocations whose
contents equal the originals', existing payloads are untouched, and writing
through any of the copy's cloned headers cannot change what any of the
original's headers read — but `mirror_inds` and `mirror_views` are copied as
`cv::Mat` headers sharing the original's reference-counted storage. -/
theorem copy_deep_copies_C6 (h : RefModel.Heap) (p : RefModel.PatchExpertsRefs)
    (hbound : ∀ r ∈ RefModel.clonedRefs p, r < h.data.length) :
    ((RefModel.copyCtor h p).2.mirror_inds = p.mirror_inds ∧
      (RefModel.copyCtor h p).2.mirror_views = p.mirror_views) ∧
    (∀ x ∈ RefModel.clonedRefs (RefModel.copyCtor h p).2, h.data.length ≤ x) ∧
    (∀ r, r < h.data.length → (RefModel.copyCtor h p).1.read r = h.read r) ∧
    (∀ i j, i < p.sigma_components.length → j < (p.sigma_components.getD i []).length →
      (RefModel.copyCtor h p).1.read
          (((RefModel.copyCtor h p).2.sigma_components.getD i []).getD j 0) =
        h.read ((p.sigma_components.getD i []).getD j 0)) ∧
    (∀ i j, i < p.visibilities.length → j < (p.visibilities.getD i []).length →
      (RefModel.copyCtor h p).1.read
          (((RefModel.copyCtor h p).2.visibilities.getD i []).getD j 0) =
        h.read ((p.visibilities.getD i []).getD j 0)) ∧
    (∀ x v r, x ∈ RefModel.clonedRefs (RefModel.copyCtor h p).2 →
      r ∈ RefModel.clonedRefs p →
      ((RefModel.copyCtor h p).1.write x v).read r = (RefModel.copyCtor h p).1.read r) := by
  have hbs : ∀ x ∈ p.sigma_components.flatten, x < h.data.length := by
    intro x hx
    exact hbound x (List.mem_append_left _ hx)
  have hbv : ∀ x ∈ p.visibilities.flatten, x < h.data.length := by
    intro x hx
    exact hbound x (List.mem_append_right _ hx)
  have hslen : h.data.length ≤ (RefModel.cloneMats2 h p.sigma_components).1.data.length := by
    rw [RefModel.cloneMats2_len]
    omega
  have hbv' : ∀ x ∈ p.visibilities.flatten,
      x < (RefModel.cloneMats2 h p.sigma_components).1.data.length := by
    intro x hx
    exact lt_of_lt_of_le (hbv x hx) hslen
  have hfreshAll : ∀ x ∈ RefModel.clonedRefs (RefModel.copyCtor h p).2,
      h.data.length ≤ x := by
    intro x hx
    rcases List.mem_append.mp hx with h1 | h1
    · have h1' : x ∈ (RefModel.cloneMats2 h p.sigma_components).2.flatten := h1
      have := (RefModel.cloneMats2_fresh p.sigma_components h x h1').1
      exact this
    · have h1' : x ∈ (RefModel.cloneMats2
          (RefModel.cloneMats2 h p.sigma_components).1 p.visibilities).2.flatten := h1
      have := (RefModel.cloneMats2_fresh p.visibilities
        (RefModel.cloneMats2 h p.sigma_components).1 x h1').1
      exact le_trans hslen this
  have hpres : ∀ r, r < h.data.length → (RefModel.copyCtor h p).1.read r = h.read r := by
    intro r hr
    calc (RefModel.copyCtor h p).1.read r
        = (RefModel.cloneMats2 h p.sigma_components).1.read r :=
          RefModel.cloneMats2_pres p.visibilities _ r (lt_of_lt_of_le hr hslen)
      _ = h.read r := RefModel.cloneMats2_pres p.sigma_components h r hr
  refine ⟨⟨rfl, rfl⟩, hfreshAll, hpres, ?_, ?_, ?_⟩
  · intro i j hi hj
    have hfr : ((RefModel.cloneMats2 h p.sigma_components).2.getD i []).getD j 0 <
        (RefModel.cloneMats2 h p.sigma_components).1.data.length := by
      have hi2 : i < (RefModel.cloneMats2 h p.sigma_components).2.length := by
        rw [RefModel.cloneMats2_out_len]
        omega
      have hj2 : j < ((RefModel.cloneMats2 h p.sigma_components).2.getD i []).length := by
        rw [RefModel.cloneMats2_out_inner_len]
        omega
      have hmem : ((RefModel.cloneMats2 h p.sigma_components).2.getD i []).getD j 0 ∈
          (RefModel.cloneMats2 h p.sigma_components).2.flatten := by
        have hmem1 : (RefModel.cloneMats2 h p.sigma_components).2.getD i [] ∈
            (RefModel.cloneMats2 h p.sigma_components).2 := by
          rw [List.getD_eq_getElem _ _ hi2]
          exact List.getElem_mem hi2
        have hmem2 : ((RefModel.cloneMats2 h p.sigma_components).2.getD i []).getD j 0 ∈
            (RefModel.cloneMats2 h p.sigma_components).2.getD i [] := by
          rw [List.getD_eq_getElem _ _ hj2]
          exact List.getElem_mem hj2
        exact List.mem_flatten_of_mem hmem1 hmem2
      exact (RefModel.cloneMats2_fresh p.sigma_components h _ hmem).2
    calc (RefModel.copyCtor h p).1.read
          (((RefModel.copyCtor h p).2.sigma_components.getD i []).getD j 0)
        = (RefModel.cloneMats2 h p.sigma_components).1.read
            (((RefModel.cloneMats2 h p.sigma_components).2.getD i []).getD j 0) :=
          RefModel.cloneMats2_pres p.visibilities _ _ hfr
      _ = h.read ((p.sigma_components.getD i []).getD j 0) :=
          RefModel.cloneMats2_content p.sigma_components h hbs i j hi hj
  · intro i j hi hj
    have hx : (p.visibilities.getD i []).getD j 0 < h.data.length := by
      refine hbv _ ?_
      have hmem1 : p.visibilities.getD i [] ∈ p.visibilities := by
        rw [List.getD_eq_getElem _ _ hi]
        exact List.getElem_mem hi
      have hmem2 : (p.visibilities.getD i []).getD j 0 ∈ p.visibilities.getD i [] := by
        rw [List.getD_eq_getElem _ _ hj]
        exact List.getElem_mem hj
      exact List.mem_flatten_of_mem hmem1 hmem2
    calc (RefModel.copyCtor h p).1.read
          (((RefModel.copyCtor h p).2.visibilities.getD i []).getD j 0)
        = (RefModel.cloneMats2 h p.sigma_components).1.read
            ((p.visibilities.getD i []).getD j 0) :=
          RefModel.cloneMats2_content p.visibilities
            (RefModel.cloneMats2 h p.sigma_components).1 hbv' i j hi hj
      _ = h.read ((p.visibilities.getD i []).getD j 0) :=
          RefModel.cloneMats2_pres p.sigma_components h _ hx
  · intro x v r hx hr
    have hxge : h.data.length ≤ x := hfreshAll x hx
    have hrlt : r < h.data.length := hbound r hr
    have hne : x ≠ r := by omega
    simp only [RefModel.Heap.write, RefModel.Heap.read]
    rw [List.getD_eq_getElem?_getD, List.getD_eq_getElem?_getD, List.getElem?_set_ne hne]

/-- C6 witness: a two-payload heap with one sigma matrix and one visibility
matrix; the copy shares the mirror headers. -/
theorem copy_deep_copies_C6_witness :
    (RefModel.copyCtor ⟨[[1], [2]]⟩ ⟨[[0]], [[1]], 0, 1⟩).2.mirror_inds =
      (⟨[[0]], [[1]], 0, 1⟩ : RefModel.PatchExpertsRefs).mirror_inds ∧
    (RefModel.copyCtor ⟨[[1], [2]]⟩ ⟨[[0]], [[1]], 0, 1⟩).2.mirror_views =
      (⟨[[0]], [[1]], 0, 1⟩ : RefModel.PatchExpertsRefs).mirror_views :=
  (copy_deep_copies_C6 ⟨[[1], [2]]⟩ ⟨[[0]], [[1]], 0, 1⟩ (by decide)).1

/-- C3 witness: two views centered at yaw 0 and yaw 1; the zero pose selects
view 0, in range. -/
theorem getViewIdx_spec_C3_witness :
    0 < Patch_experts.nViews
        { (default : Patch_experts) with centers := [[(0, 0, 0), (1, 0, 0)]] } 0 ∧
    Patch_experts.GetViewIdx
        { (default : Patch_experts) with centers := [[(0, 0, 0), (1, 0, 0)]] }
        (fun _ => 0) 0 <
      Patch_experts.nViews
        { (default : Patch_experts) with centers := [[(0, 0, 0), (1, 0, 0)]] } 0 :=
  ⟨by decide,
    (getViewIdx_spec_C3
      { (default : Patch_experts) with centers := [[(0, 0, 0), (1, 0, 0)]] }
      (fun _ => 0) 0 (by decide)).1⟩

end OpenFace
